import Mathlib

/-!
Verification of the query-serving pipeline of `src/api/router/rag_router.py`
(and the engine lifecycle reference of `src/api/server.py`) against its
design specification.

The retrieval-generation engine is opaque: it is modelled as a record
carrying its module list, its model identifiers, and its call behaviour
(a function from the query and the two optional parameters to either a
result value or a raised exception message).  Python floats appearing in
the router (timestamps, thresholds, hit rates) are embedded as rationals;
Python `round(x, n)` uses round-half-to-even, embedded below as
`roundHalfEven` / `pyRound`.
-/

set_option autoImplicit false

namespace RagRouter

/-- One entry of `result.sources` as consumed at line 80 of the router:
a mapping with a `"path"` key and an optional `"page"` key. -/
structure Source where
  path : String
  page : Option Int := none
  deriving Repr, DecidableEq

/-- The value returned by `global_rag(...)`: either natively a Python `str`,
or some other object, of which the router only uses `str(result)` and the
optional `sources` attribute. -/
inductive PyResult where
  | pyStr (s : String)
  | pyObj (strRepr : String) (sources : Option (List Source))
  deriving Repr, DecidableEq

/-- One element of `global_rag.modules`, as probed by `hasattr`:
`hit_rate` models the `hit_rate` attribute (absent when `none`),
`last_hit` models the `_last_hit` attribute (absent when `none`). -/
structure Module where
  hit_rate : Option ℚ
  last_hit : Option Bool
  deriving Repr, DecidableEq

/-- The opaque engine held in the global reference `global_rag`.
`run` is the engine invocation `global_rag(query, top_k=…, similarity_threshold=…)`:
it yields `Except.error msg` when the call raises with message `msg`.
`llm_model`, `embedding_model`, `vector_db` model the attribute chains
`global_rag.llm.model_name`, `global_rag.embedding.model_name`,
`global_rag.vector_db` (absent when `none`). -/
structure RAGEngine where
  modules : List Module
  run : String → Option ℤ → Option ℚ → Except String PyResult
  llm_model : Option String
  embedding_model : Option String
  vector_db : Option String

/-- The normalized request the handler receives after pydantic validation of
`RAGQueryRequest`: `top_k` and `similarity_threshold` are `Optional`, so an
explicit `null` survives validation as `none`. -/
structure RAGQueryRequest where
  query : String
  top_k : Option ℤ
  similarity_threshold : Option ℚ
  deriving Repr, DecidableEq

/-- A raw inbound JSON body for `POST /query`: each field is absent (`none`)
or present; a present `top_k` / `similarity_threshold` is itself `null`
(`some none`) or a value (`some (some v)`). -/
structure RawRequest where
  query : Option String
  top_k : Option (Option ℤ)
  similarity_threshold : Option (Option ℚ)
  deriving Repr, DecidableEq

/-- The `data` object of a successful `RAGQueryResponse` (lines 84-92). -/
structure ResponseData where
  query : String
  answer : String
  data_source : List String
  response_time : ℚ
  cache_hit : Bool
  deriving Repr, DecidableEq

/-- Outcome of one `/query` invocation: a 200 body, or an `HTTPException`
escaping the handler.  The failure constructor also records the
`response_time` the handler computed and logged on that path (line 94). -/
inductive QueryOutcome where
  | ok (resp : ResponseData)
  | fail (status : Nat) (detail : String) (response_time : ℚ)
  deriving Repr, DecidableEq

/-- The `data` object returned by `GET /stats` (lines 120-130).
`cache_hit_rate` is the percent-formatted string `f"{rate:.2%}"`. -/
structure StatsData where
  cache_hit_rate : String
  llm_model : String
  embedding_model : String
  vector_db : String
  supported_data_types : List String
  deriving Repr, DecidableEq

/-- Outcome of one `GET /stats` invocation. -/
inductive StatsOutcome where
  | ok (d : StatsData)
  | fail (status : Nat) (detail : String)
  deriving Repr, DecidableEq

/-- Kernel-computable floor of a rational. -/
def ratFloor (q : ℚ) : ℤ :=
  q.num / q.den

/-- Round-half-to-even on rationals, the rounding mode of Python `round`. -/
def roundHalfEven (q : ℚ) : ℤ :=
  let f := ratFloor q
  let r := q - f
  if r < 1 / 2 then f
  else if 1 / 2 < r then f + 1
  else if f % 2 = 0 then f else f + 1

/-- Python `round(q, n)` on the rational embedding of a float. -/
def pyRound (q : ℚ) (n : ℕ) : ℚ :=
  (roundHalfEven (q * 10 ^ n) : ℚ) / 10 ^ n

/-- `str(e)` for a starlette `HTTPException`: the format is
`"s: detail"` where `s` is the status code. -/
def strOfHTTPException (status : Nat) (detail : String) : String :=
  toString status ++ ": " ++ detail

/-- Line 87: `result.strip() if isinstance(result, str) else str(result)`. -/
def answerOf : PyResult → String
  | .pyStr s => s.trim
  | .pyObj r _ => r

/-- The `sources` attribute of the result, when present (`hasattr(result, "sources")`);
a native `str` result has no such attribute. -/
def sourcesOf : PyResult → Option (List Source)
  | .pyStr _ => none
  | .pyObj _ s => s

/-- Lines 78-80: `data_source = [source["path"] for source in result.sources[:3]]`
when the result has a `sources` attribute, else the empty list. -/
def dataSourceOf (result : PyResult) : List String :=
  match sourcesOf result with
  | some srcs => (srcs.take 3).map Source.path
  | none => []

/-- Lines 71-75: the loop over `global_rag.modules` that sets `cache_hit` from
the `_last_hit` attribute of the first module exposing both `hit_rate` and
`_last_hit`, and breaks; `False` when the loop finds none. -/
def cacheHitLoop : List Module → Bool
  | [] => false
  | m :: rest =>
    if m.hit_rate.isSome && m.last_hit.isSome then m.last_hit.getD false
    else cacheHitLoop rest

/-- Lines 110-114: the loop over `global_rag.modules` that sets
`cache_hit_rate = round(module.hit_rate, 4)` at the first module exposing
`hit_rate`, and breaks; `0.0` when the loop finds none. -/
def hitRateLoop : List Module → ℚ
  | [] => 0
  | m :: rest =>
    match m.hit_rate with
    | some r => pyRound r 4
    | none => hitRateLoop rest

/-- The handler body of `POST /query` (lines 50-99), given the state of the
global engine reference and the two wall-clock readings `t0 = time.time()`
at line 51 and `t1 = time.time()` at line 68 or 94.  Note the `raise
HTTPException(503, …)` at line 58 sits inside the `try:` block, so the
generic `except Exception` at line 93 catches it and re-raises it as a 500
whose detail embeds `str(e)`. -/
def rag_query (global_rag : Option RAGEngine) (request : RAGQueryRequest)
    (t0 t1 : ℚ) : QueryOutcome :=
  match global_rag with
  | none =>
    .fail 500 ("查询失败：" ++ strOfHTTPException 503 "RAG服务未就绪，请稍后重试")
      (pyRound (t1 - t0) 2)
  | some g =>
    match g.run request.query request.top_k request.similarity_threshold with
    | .error msg => .fail 500 ("查询失败：" ++ msg) (pyRound (t1 - t0) 2)
    | .ok result =>
      .ok { query := request.query
            answer := answerOf result
            data_source := dataSourceOf result
            response_time := pyRound (t1 - t0) 2
            cache_hit := cacheHitLoop g.modules }

/-- The `response_time` the handler computed on either path: field of the
200 body on success, the value logged at line 94 on failure. -/
def responseTimeOf : QueryOutcome → ℚ
  | .ok resp => resp.response_time
  | .fail _ _ rt => rt

/-- Python `f"{q:.2%}"`: scale by 100, round half-to-even to 2 decimal
places, render with exactly two fractional digits and a percent sign. -/
def formatPercent2 (q : ℚ) : String :=
  let scaled : ℤ := roundHalfEven (q * 10000)
  let sign := if scaled < 0 then "-" else ""
  let n := scaled.natAbs
  let ip := n / 100
  let fp := n % 100
  sign ++ toString ip ++ "." ++ (if fp < 10 then "0" else "") ++ toString fp ++ "%"

/-- The handler body of `GET /stats` (lines 101-130). -/
def get_rag_stats (global_rag : Option RAGEngine) : StatsOutcome :=
  match global_rag with
  | none => .fail 503 "RAG服务未就绪"
  | some g =>
    .ok { cache_hit_rate := formatPercent2 (hitRateLoop g.modules)
          llm_model := g.llm_model.getD "unknown"
          embedding_model := g.embedding_model.getD "unknown"
          vector_db := g.vector_db.getD "unknown"
          supported_data_types := ["text", "pdf", "image", "scanned_pdf"] }

/-- Pydantic validation of `RAGQueryRequest` (lines 21-24):
`query : str` is required but otherwise unconstrained; `top_k` is
`Optional[int]` with default 8 and bounds `ge=1, le=20`; `similarity_threshold`
is `Optional[float]` with default 0.6 and bounds `ge=0.1, le=0.9`.  An
explicit `null` satisfies the `Optional` branch, so bounds are only checked
on concrete values and the default only fills an absent field. -/
def validateRAGQueryRequest (raw : RawRequest) : Except String RAGQueryRequest :=
  match raw.query with
  | none => .error "field required: query"
  | some q =>
    match raw.top_k with
    | some (some v) =>
      if 1 ≤ v ∧ v ≤ 20 then
        match raw.similarity_threshold with
        | some (some s) =>
          if 0.1 ≤ s ∧ s ≤ 0.9 then .ok ⟨q, some v, some s⟩
          else .error "similarity_threshold out of range"
        | some none => .ok ⟨q, some v, none⟩
        | none => .ok ⟨q, some v, some 0.6⟩
      else .error "top_k out of range"
    | some none =>
      match raw.similarity_threshold with
      | some (some s) =>
        if 0.1 ≤ s ∧ s ≤ 0.9 then .ok ⟨q, none, some s⟩
        else .error "similarity_threshold out of range"
      | some none => .ok ⟨q, none, none⟩
      | none => .ok ⟨q, none, some 0.6⟩
    | none =>
      match raw.similarity_threshold with
      | some (some s) =>
        if 0.1 ≤ s ∧ s ≤ 0.9 then .ok ⟨q, some 8, some s⟩
        else .error "similarity_threshold out of range"
      | some none => .ok ⟨q, some 8, none⟩
      | none => .ok ⟨q, some 8, some 0.6⟩

/-- Modelled from the spec: the rate-limiting mechanics live in the external
`slowapi` dependency; only the configuration string `"20/minute"` and the
per-client key function (remote address) are repository code (lines 16, 39).
Per the spec the limiter keeps per-client-identifier counters over a rolling
1-minute window.  `windowCount` counts this client's prior requests whose
timestamps fall in the rolling 60-second window ending at `t`. -/
def windowCount (history : List (String × ℚ)) (client : String) (t : ℚ) : ℕ :=
  (history.filter (fun r => r.1 == client && decide (t - 60 < r.2) && decide (r.2 ≤ t))).length

/-- Modelled from the spec: the limiter passes a request through exactly when
the client has not already reached 20 requests in the rolling window. -/
def rateLimitAllows (history : List (String × ℚ)) (client : String) (t : ℚ) : Bool :=
  windowCount history client t < 20

/-- The guarded endpoint: the limiter runs before the handler; a rejected
request yields a 429 and never invokes the handler or the engine.  The
boolean records whether the engine was invoked. -/
def handle_query (history : List (String × ℚ)) (client : String)
    (global_rag : Option RAGEngine) (request : RAGQueryRequest)
    (t0 t1 : ℚ) : QueryOutcome × Bool :=
  if rateLimitAllows history client t0 then
    (rag_query global_rag request t0 t1, global_rag.isSome)
  else
    (.fail 429 "Rate limit exceeded: 20 per 1 minute" 0, false)

/-- The probe the claim describes for `cache_hit`: the first module exposing
both attributes, selected with `List.find?`, compared against the source loop. -/
def firstBothProbe (modules : List Module) : Bool :=
  match modules.find? (fun m => m.hit_rate.isSome && m.last_hit.isSome) with
  | some m => m.last_hit.getD false
  | none => false

/-- A concrete engine whose single cache-capable module reports a hit rate
above 1, exercising the stats endpoint. -/
def overUnitEngine : RAGEngine :=
  { modules := [{ hit_rate := some (3 / 2), last_hit := none }]
    run := fun _ _ _ => .ok (.pyStr "")
    llm_model := none
    embedding_model := none
    vector_db := none }

/-- A concrete engine that answers every query with a fixed multimodal
result carrying four sources. -/
def fourSourceEngine : RAGEngine :=
  { modules := []
    run := fun _ _ _ => .ok (.pyObj "ans"
      (some [{ path := "a.pdf" }, { path := "b.pdf" }, { path := "c.pdf" }, { path := "d.pdf" }]))
    llm_model := none
    embedding_model := none
    vector_db := none }

/-- A concrete engine whose every invocation raises. -/
def raisingEngine : RAGEngine :=
  { modules := []
    run := fun _ _ _ => .error "embedding backend down"
    llm_model := none
    embedding_model := none
    vector_db := none }

/-- A concrete engine returning a native string answer with padding, with
one module exposing both cache attributes. -/
def paddedAnswerEngine : RAGEngine :=
  { modules := [{ hit_rate := some 0, last_hit := some true }]
    run := fun _ _ _ => .ok (.pyStr "  Refunds within 30 days.  ")
    llm_model := some "deepseek-chat"
    embedding_model := some "bge-large-zh-v1.5"
    vector_db := some "milvus" }

/-- A concrete engine, in unit-interval range, for the stats witness. -/
def halfHitRateEngine : RAGEngine :=
  { modules := [{ hit_rate := some (1 / 2), last_hit := none }]
    run := fun _ _ _ => .ok (.pyStr "")
    llm_model := none
    embedding_model := none
    vector_db := none }

/-- Helper lemmas about the embedded Python rounding. -/
theorem ratFloor_eq_floor (q : ℚ) : ratFloor q = ⌊q⌋ :=
  (Rat.floor_def).symm

theorem floor_le_roundHalfEven (q : ℚ) : ⌊q⌋ ≤ roundHalfEven q := by
  simp only [roundHalfEven, ratFloor_eq_floor]
  split_ifs <;> omega

theorem roundHalfEven_le_ceil (q : ℚ) : roundHalfEven q ≤ ⌈q⌉ := by
  simp only [roundHalfEven, ratFloor_eq_floor]
  have hfc : ⌊q⌋ ≤ ⌈q⌉ := Int.floor_le_ceil q
  have hlt : ¬ q - ⌊q⌋ < 1 / 2 → ⌊q⌋ + 1 ≤ ⌈q⌉ := by
    intro h
    rw [Int.add_one_le_ceil_iff]
    have : (1 : ℚ) / 2 ≤ q - ⌊q⌋ := le_of_not_lt h
    linarith
  split_ifs with h1 h2 h3 <;> first | exact hfc | exact hlt h1

theorem roundHalfEven_nonneg (q : ℚ) (h : 0 ≤ q) : 0 ≤ roundHalfEven q := by
  have := floor_le_roundHalfEven q
  have h0 : (0 : ℤ) ≤ ⌊q⌋ := Int.floor_nonneg.mpr h
  omega

theorem roundHalfEven_intCast (z : ℤ) : roundHalfEven (z : ℚ) = z := by
  simp only [roundHalfEven, ratFloor_eq_floor, Int.floor_intCast]
  have : ((z : ℚ) - (z : ℚ)) = 0 := sub_self _
  rw [this]
  norm_num

theorem pyRound_nonneg (q : ℚ) (n : ℕ) (h : 0 ≤ q) : 0 ≤ pyRound q n := by
  unfold pyRound
  have hp : (0 : ℚ) < 10 ^ n := by positivity
  have hr : (0 : ℤ) ≤ roundHalfEven (q * 10 ^ n) :=
    roundHalfEven_nonneg _ (by positivity)
  positivity

theorem pyRound_le_one (q : ℚ) (n : ℕ) (h : q ≤ 1) : pyRound q n ≤ 1 := by
  unfold pyRound
  have hp : (0 : ℚ) < 10 ^ n := by positivity
  have hq : q * 10 ^ n ≤ ((10 ^ n : ℤ) : ℚ) := by
    push_cast
    nlinarith
  have hr : roundHalfEven (q * 10 ^ n) ≤ 10 ^ n :=
    le_trans (roundHalfEven_le_ceil _) (Int.ceil_le.mpr hq)
  rw [div_le_one hp]
  exact_mod_cast hr

/-- Claim C1 (code behaviour at the failing state): when the global engine
reference is `None`, the handler's own `HTTPException(503)` is raised inside
the `try:` block and swallowed by the generic `except Exception`, so the
query fails with HTTP 500 — whose detail embeds the stringified 503 — and
never with the 503 ServiceUnavailable signal the claim requires. -/
theorem engine_absent_query_returns_500 (request : RAGQueryRequest) (t0 t1 : ℚ) :
    rag_query none request t0 t1 =
      .fail 500 ("查询失败：" ++ strOfHTTPException 503 "RAG服务未就绪，请稍后重试")
        (pyRound (t1 - t0) 2)
    ∧ (∀ d rt, rag_query none request t0 t1 ≠ .fail 503 d rt)
    ∧ (∀ resp, rag_query none request t0 t1 ≠ .ok resp) := by
  refine ⟨rfl, ?_, ?_⟩ <;> intros <;> simp [rag_query]

/-- Claim C2, counterexample: a whitespace-only `query` passes pydantic
validation unchanged — the model declares `query : str` with no emptiness
or whitespace constraint — contradicting the claim that such a request is
rejected with a `ValidationError`. -/
theorem whitespace_query_accepted :
    validateRAGQueryRequest { query := some "   ", top_k := none, similarity_threshold := none } =
      .ok { query := "   ", top_k := some 8, similarity_threshold := some 0.6 } :=
  rfl

/-- Claim C2, amended: validation rejects a supplied `top_k` outside [1,20]
and a supplied `similarity_threshold` outside [0.1,0.9]; omitted fields
default to 8 and 0.6; the `query` string itself is accepted as-is (even
empty or whitespace-only) and in-range values are passed through unchanged. -/
theorem validate_ranges_and_defaults (q : String) (v : ℤ) (s : ℚ) :
    (¬ (1 ≤ v ∧ v ≤ 20) →
      ∀ sraw, (validateRAGQueryRequest
        { query := some q, top_k := some (some v), similarity_threshold := sraw }).isOk = false)
    ∧ (¬ (0.1 ≤ s ∧ s ≤ 0.9) →
      ∀ kraw, (validateRAGQueryRequest
        { query := some q, top_k := kraw, similarity_threshold := some (some s) }).isOk = false)
    ∧ validateRAGQueryRequest { query := some q, top_k := none, similarity_threshold := none } =
        .ok { query := q, top_k := some 8, similarity_threshold := some 0.6 }
    ∧ ((1 ≤ v ∧ v ≤ 20) → (0.1 ≤ s ∧ s ≤ 0.9) →
      validateRAGQueryRequest
          { query := some q, top_k := some (some v), similarity_threshold := some (some s) } =
        .ok { query := q, top_k := some v, similarity_threshold := some s }) := by
  refine ⟨?_, ?_, rfl, ?_⟩
  · intro hv sraw
    rcases sraw with _ | _ | s' <;> simp [validateRAGQueryRequest, Except.isOk, Except.toBool, hv]
  · intro hs kraw
    rcases kraw with _ | _ | v'
    · simp [validateRAGQueryRequest, Except.isOk, Except.toBool, hs]
    · simp [validateRAGQueryRequest, Except.isOk, Except.toBool, hs]
    · simp only [validateRAGQueryRequest]
      split_ifs with h
      · simp [Except.isOk, Except.toBool, hs]
      · simp [Except.isOk, Except.toBool]
  · intro hv hs
    simp [validateRAGQueryRequest, hv, hs]

/-- Claim C2 witness: `top_k = 25` is rejected, while an empty body with
only a query gets the defaults. -/
theorem validate_ranges_and_defaults_witness :
    (validateRAGQueryRequest
      { query := some "x", top_k := some (some 25), similarity_threshold := none }).isOk = false
    ∧ validateRAGQueryRequest { query := some "x", top_k := none, similarity_threshold := none } =
        .ok { query := "x", top_k := some 8, similarity_threshold := some 0.6 } :=
  ⟨(validate_ranges_and_defaults "x" 25 0.5).1 (by norm_num) none,
   (validate_ranges_and_defaults "x" 25 0.5).2.2.1⟩

/-- Claim C3: on every successful query, `data_source` is the list of the
`path` fields of the first at most three sources of the engine result, so
its length never exceeds 3, and it is empty when the result exposes no
`sources` attribute. -/
theorem success_data_source_take3 (g : RAGEngine) (request : RAGQueryRequest)
    (t0 t1 : ℚ) (result : PyResult)
    (hrun : g.run request.query request.top_k request.similarity_threshold = .ok result) :
    ∃ resp, rag_query (some g) request t0 t1 = .ok resp
      ∧ resp.data_source.length ≤ 3
      ∧ resp.data_source = (((sourcesOf result).getD []).take 3).map Source.path
      ∧ (sourcesOf result = none → resp.data_source = []) := by
  refine ⟨{ query := request.query, answer := answerOf result,
            data_source := dataSourceOf result, response_time := pyRound (t1 - t0) 2,
            cache_hit := cacheHitLoop g.modules }, ?_, ?_, ?_, ?_⟩
  · simp [rag_query, hrun]
  · rcases h : sourcesOf result with _ | srcs <;>
      simp [dataSourceOf, h, List.length_take]
  · rcases h : sourcesOf result with _ | srcs <;> simp [dataSourceOf, h]
  · intro h
    simp [dataSourceOf, h]

/-- Claim C3 witness: an engine returning four sources yields exactly the
first three paths. -/
theorem success_data_source_take3_witness :
    ∃ resp, rag_query (some fourSourceEngine)
        { query := "q", top_k := some 5, similarity_threshold := some 0.7 } 0 1 = .ok resp
      ∧ resp.data_source.length ≤ 3
      ∧ resp.data_source =
          (((sourcesOf (.pyObj "ans"
            (some [{ path := "a.pdf" }, { path := "b.pdf" },
                   { path := "c.pdf" }, { path := "d.pdf" }]))).getD []).take 3).map Source.path
      ∧ (sourcesOf (.pyObj "ans"
            (some [{ path := "a.pdf" }, { path := "b.pdf" },
                   { path := "c.pdf" }, { path := "d.pdf" }])) = none →
          resp.data_source = []) :=
  success_data_source_take3 fourSourceEngine
    { query := "q", top_k := some 5, similarity_threshold := some 0.7 } 0 1 _ rfl

/-- Claim C4: whenever the engine invocation raises, the handler computes the
elapsed time and fails with HTTP 500 whose detail embeds the underlying
message; it never produces a 200 response on this path. -/
theorem engine_error_maps_to_500 (g : RAGEngine) (request : RAGQueryRequest)
    (t0 t1 : ℚ) (msg : String)
    (hrun : g.run request.query request.top_k request.similarity_threshold = .error msg) :
    rag_query (some g) request t0 t1 = .fail 500 ("查询失败：" ++ msg) (pyRound (t1 - t0) 2)
    ∧ (∀ resp, rag_query (some g) request t0 t1 ≠ .ok resp) := by
  constructor
  · simp [rag_query, hrun]
  · intro resp
    simp [rag_query, hrun]

/-- Claim C4 witness: a concretely raising engine yields the 500 outcome. -/
theorem engine_error_maps_to_500_witness :
    rag_query (some raisingEngine) { query := "q", top_k := none, similarity_threshold := none } 0 1 =
      .fail 500 ("查询失败：" ++ "embedding backend down") (pyRound (1 - 0) 2)
    ∧ (∀ resp, rag_query (some raisingEngine)
        { query := "q", top_k := none, similarity_threshold := none } 0 1 ≠ .ok resp) :=
  engine_error_maps_to_500 raisingEngine
    { query := "q", top_k := none, similarity_threshold := none } 0 1 "embedding backend down" rfl

/-- Claim C5: on every path — engine absent, engine raising, or success —
the handler computes a `response_time` equal to the elapsed wall-clock time
rounded half-to-even to 2 decimal places, and it is non-negative whenever
the second clock reading is not before the first. -/
theorem response_time_on_both_paths (engine : Option RAGEngine)
    (request : RAGQueryRequest) (t0 t1 : ℚ) (h : t0 ≤ t1) :
    responseTimeOf (rag_query engine request t0 t1) = pyRound (t1 - t0) 2
    ∧ 0 ≤ responseTimeOf (rag_query engine request t0 t1) := by
  have heq : responseTimeOf (rag_query engine request t0 t1) = pyRound (t1 - t0) 2 := by
    rcases engine with _ | g
    · rfl
    · rcases hr : g.run request.query request.top_k request.similarity_threshold with msg | result <;>
        simp [rag_query, responseTimeOf, hr]
  refine ⟨heq, ?_⟩
  rw [heq]
  exact pyRound_nonneg _ _ (by linarith)

/-- Claim C5 witness: at clock readings 0 and 1 with the engine absent. -/
theorem response_time_on_both_paths_witness :
    responseTimeOf (rag_query none
        { query := "q", top_k := none, similarity_threshold := none } 0 1) =
      pyRound (1 - 0) 2
    ∧ 0 ≤ responseTimeOf (rag_query none
        { query := "q", top_k := none, similarity_threshold := none } 0 1) :=
  response_time_on_both_paths none
    { query := "q", top_k := none, similarity_threshold := none } 0 1 (by norm_num)

/-- Claim C6, counterexample: nothing clamps the probed counter to [0,1] —
an engine whose first cache-capable module reports `hit_rate = 3/2` makes
the stats endpoint serve a rate of 3/2 (rendered `"150.00%"`), so the
snapshot's `cache_hit_rate` is not a float in [0,1]; it is, moreover,
serialized as a percent string, not a float. -/
theorem stats_hit_rate_not_in_unit_interval :
    hitRateLoop overUnitEngine.modules = 3 / 2
    ∧ ¬ hitRateLoop overUnitEngine.modules ≤ 1
    ∧ get_rag_stats (some overUnitEngine) =
        .ok { cache_hit_rate := formatPercent2 (hitRateLoop overUnitEngine.modules)
              llm_model := "unknown", embedding_model := "unknown"
              vector_db := "unknown"
              supported_data_types := ["text", "pdf", "image", "scanned_pdf"] } := by
  have hcast : ((3 : ℚ) / 2) * 10 ^ 4 = ((15000 : ℤ) : ℚ) := by norm_num
  have hval : pyRound (3 / 2) 4 = 3 / 2 := by
    unfold pyRound
    rw [hcast, roundHalfEven_intCast]
    norm_num
  have hloop : hitRateLoop overUnitEngine.modules = 3 / 2 := by
    simp [hitRateLoop, overUnitEngine, hval]
  refine ⟨hloop, ?_, rfl⟩
  rw [hloop]
  norm_num

/-- Claim C6, amended: stats fails with 503 when the engine is not
constructed; otherwise it returns a read-only snapshot whose
`cache_hit_rate` is the first cache-capable module's counter rounded to 4
decimal places (0.0 when none exists), rendered as a percent string, and
that value lies in [0,1] whenever every exposed counter does; the model
identifiers default to "unknown" when the engine does not expose them. -/
theorem stats_snapshot_amended (g : RAGEngine)
    (hrange : ∀ m ∈ g.modules, ∀ r, m.hit_rate = some r → 0 ≤ r ∧ r ≤ 1) :
    get_rag_stats none = .fail 503 "RAG服务未就绪"
    ∧ get_rag_stats (some g) =
        .ok { cache_hit_rate := formatPercent2 (hitRateLoop g.modules)
              llm_model := g.llm_model.getD "unknown"
              embedding_model := g.embedding_model.getD "unknown"
              vector_db := g.vector_db.getD "unknown"
              supported_data_types := ["text", "pdf", "image", "scanned_pdf"] }
    ∧ 0 ≤ hitRateLoop g.modules ∧ hitRateLoop g.modules ≤ 1 := by
  refine ⟨rfl, rfl, ?_⟩
  have key : ∀ ms : List Module,
      (∀ m ∈ ms, ∀ r, m.hit_rate = some r → 0 ≤ r ∧ r ≤ 1) →
      0 ≤ hitRateLoop ms ∧ hitRateLoop ms ≤ 1 := by
    intro ms
    induction ms with
    | nil => intro _; simp [hitRateLoop]
    | cons m rest ih =>
      intro hr'
      have hm := hr' m (List.mem_cons_self m rest)
      rcases hr : m.hit_rate with _ | r
      · simpa [hitRateLoop, hr] using
          ih (fun m' hm' r' hrr => hr' m' (List.mem_cons_of_mem m hm') r' hrr)
      · have hb := hm r hr
        exact ⟨by simpa [hitRateLoop, hr] using pyRound_nonneg r 4 hb.1,
               by simpa [hitRateLoop, hr] using pyRound_le_one r 4 hb.2⟩
  exact key g.modules hrange

/-- Claim C6 witness: an engine with one module at `hit_rate = 1/2`. -/
theorem stats_snapshot_amended_witness :
    get_rag_stats none = .fail 503 "RAG服务未就绪"
    ∧ get_rag_stats (some halfHitRateEngine) =
        .ok { cache_hit_rate := formatPercent2 (hitRateLoop halfHitRateEngine.modules)
              llm_model := halfHitRateEngine.llm_model.getD "unknown"
              embedding_model := halfHitRateEngine.embedding_model.getD "unknown"
              vector_db := halfHitRateEngine.vector_db.getD "unknown"
              supported_data_types := ["text", "pdf", "image", "scanned_pdf"] }
    ∧ 0 ≤ hitRateLoop halfHitRateEngine.modules ∧ hitRateLoop halfHitRateEngine.modules ≤ 1 :=
  stats_snapshot_amended halfHitRateEngine (by
    intro m hm r hr
    simp only [halfHitRateEngine, List.mem_singleton] at hm
    subst hm
    simp only [Option.some_inj] at hr
    subst hr
    norm_num)

/-- Claim C7: on every successful query, the `answer` field is the engine
result trimmed of leading and trailing whitespace when the result is
natively a string, and the result's string representation (untrimmed)
otherwise. -/
theorem answer_string_policy (g : RAGEngine) (request : RAGQueryRequest)
    (t0 t1 : ℚ) (result : PyResult)
    (hrun : g.run request.query request.top_k request.similarity_threshold = .ok result) :
    ∃ resp, rag_query (some g) request t0 t1 = .ok resp
      ∧ (∀ s, result = .pyStr s → resp.answer = s.trim)
      ∧ (∀ rep srcs, result = .pyObj rep srcs → resp.answer = rep) := by
  refine ⟨{ query := request.query, answer := answerOf result,
            data_source := dataSourceOf result, response_time := pyRound (t1 - t0) 2,
            cache_hit := cacheHitLoop g.modules }, ?_, ?_, ?_⟩
  · simp [rag_query, hrun]
  · intro s hs
    subst hs
    rfl
  · intro rep srcs hr
    subst hr
    rfl

/-- Claim C7 witness: an engine answering with a padded native string. -/
theorem answer_string_policy_witness :
    ∃ resp, rag_query (some paddedAnswerEngine)
        { query := "q", top_k := some 5, similarity_threshold := some 0.7 } 0 1 = .ok resp
      ∧ (∀ s, (PyResult.pyStr "  Refunds within 30 days.  ") = .pyStr s →
          resp.answer = s.trim)
      ∧ (∀ rep srcs, (PyResult.pyStr "  Refunds within 30 days.  ") = .pyObj rep srcs →
          resp.answer = rep) :=
  answer_string_policy paddedAnswerEngine
    { query := "q", top_k := some 5, similarity_threshold := some 0.7 } 0 1
    (.pyStr "  Refunds within 30 days.  ") rfl

/-- Unfolding one request out of the rolling-window count. -/
theorem windowCount_cons (r : String × ℚ) (hist : List (String × ℚ)) (c : String) (t : ℚ) :
    windowCount (r :: hist) c t =
      (if r.1 = c ∧ t - 60 < r.2 ∧ r.2 ≤ t then 1 else 0) + windowCount hist c t := by
  by_cases h : r.1 = c ∧ t - 60 < r.2 ∧ r.2 ≤ t
  · simp [windowCount, List.filter_cons, h, h.1, h.2.1, h.2.2, Nat.add_comm]
  · have hp : (r.1 == c && decide (t - 60 < r.2) && decide (r.2 ≤ t)) = false := by
      rcases not_and_or.mp h with h1 | h23
      · simp [h1]
      · rcases not_and_or.mp h23 with h2 | h3
        · simp [h2]
        · simp [h3]
    simp [windowCount, List.filter_cons, hp, h]

/-- The window count over `n` identical requests from one client. -/
theorem windowCount_replicate (n : ℕ) (c : String) (s t : ℚ) :
    windowCount (List.replicate n (c, s)) c t = if t - 60 < s ∧ s ≤ t then n else 0 := by
  induction n with
  | zero => simp [windowCount]
  | succ k ih =>
    rw [List.replicate_succ, windowCount_cons, ih]
    by_cases h : t - 60 < s ∧ s ≤ t <;> simp [h, Nat.add_comm]

/-- Claim C8 (spec-modelled limiter): a client that already has 20 requests
inside the rolling 60-second window is rejected with a 429 and the engine is
never invoked; at a time by which every previous request has left the
window, and more generally whenever the count is below the cap, the request
passes through to the handler untouched. -/
theorem rate_limit_window (history : List (String × ℚ)) (client : String)
    (engine : Option RAGEngine) (request : RAGQueryRequest) (t t' u t1 : ℚ)
    (hover : 20 ≤ windowCount history client t)
    (hpassed : ∀ r ∈ history, r.2 ≤ t' - 60)
    (hunder : windowCount history client u < 20) :
    handle_query history client engine request t t1 =
        (.fail 429 "Rate limit exceeded: 20 per 1 minute" 0, false)
    ∧ handle_query history client engine request t' t1 =
        (rag_query engine request t' t1, engine.isSome)
    ∧ handle_query history client engine request u t1 =
        (rag_query engine request u t1, engine.isSome) := by
  have hw : windowCount history client t' = 0 := by
    unfold windowCount
    have : List.filter
        (fun r => r.1 == client && decide (t' - 60 < r.2) && decide (r.2 ≤ t')) history = [] := by
      rw [List.filter_eq_nil_iff]
      intro r hr
      have hp := hpassed r hr
      have hd : decide (t' - 60 < r.2) = false := by
        simp only [decide_eq_false_iff_not]
        exact not_lt.mpr (by linarith)
      simp [hd]
    rw [this]
    rfl
  refine ⟨?_, ?_, ?_⟩
  · simp [handle_query, rateLimitAllows]
    omega
  · simp [handle_query, rateLimitAllows, hw]
  · simp [handle_query, rateLimitAllows, hunder]

/-- Claim C8 witness: 20 requests from one address at second 30 block that
address at second 50; at second 100 (and 200) the window has passed. -/
theorem rate_limit_window_witness :
    handle_query (List.replicate 20 ("1.2.3.4", (30 : ℚ))) "1.2.3.4" none
        { query := "q", top_k := none, similarity_threshold := none } 50 1 =
      (.fail 429 "Rate limit exceeded: 20 per 1 minute" 0, false)
    ∧ handle_query (List.replicate 20 ("1.2.3.4", (30 : ℚ))) "1.2.3.4" none
        { query := "q", top_k := none, similarity_threshold := none } 100 1 =
      (rag_query none { query := "q", top_k := none, similarity_threshold := none } 100 1,
        (none : Option RAGEngine).isSome)
    ∧ handle_query (List.replicate 20 ("1.2.3.4", (30 : ℚ))) "1.2.3.4" none
        { query := "q", top_k := none, similarity_threshold := none } 200 1 =
      (rag_query none { query := "q", top_k := none, similarity_threshold := none } 200 1,
        (none : Option RAGEngine).isSome) :=
  rate_limit_window (List.replicate 20 ("1.2.3.4", (30 : ℚ))) "1.2.3.4" none
    { query := "q", top_k := none, similarity_threshold := none } 50 100 200 1
    (by rw [windowCount_replicate]; norm_num)
    (by
      intro r hr
      have := List.eq_of_mem_replicate hr
      subst this
      norm_num)
    (by rw [windowCount_replicate]; norm_num)

/-- Claim C9: an explicit `null` for `top_k` and `similarity_threshold`
passes validation as `None` — neither rejected by the range check nor
replaced by the default — and the handler forwards exactly those `None`
values to the engine invocation. -/
theorem null_params_pass_through (q : String) (g : RAGEngine) (t0 t1 : ℚ)
    (result : PyResult) (hrun : g.run q none none = .ok result) :
    validateRAGQueryRequest
        { query := some q, top_k := some none, similarity_threshold := some none } =
      .ok { query := q, top_k := none, similarity_threshold := none }
    ∧ rag_query (some g) { query := q, top_k := none, similarity_threshold := none } t0 t1 =
        .ok { query := q, answer := answerOf result, data_source := dataSourceOf result,
              response_time := pyRound (t1 - t0) 2, cache_hit := cacheHitLoop g.modules } := by
  constructor
  · rfl
  · simp [rag_query, hrun]

/-- Claim C9 witness: a concrete engine receiving the forwarded nulls. -/
theorem null_params_pass_through_witness :
    validateRAGQueryRequest
        { query := some "q", top_k := some none, similarity_threshold := some none } =
      .ok { query := "q", top_k := none, similarity_threshold := none }
    ∧ rag_query (some paddedAnswerEngine)
        { query := "q", top_k := none, similarity_threshold := none } 0 1 =
        .ok { query := "q", answer := answerOf (.pyStr "  Refunds within 30 days.  "),
              data_source := dataSourceOf (.pyStr "  Refunds within 30 days.  "),
              response_time := pyRound (1 - 0) 2,
              cache_hit := cacheHitLoop paddedAnswerEngine.modules } := by
  exact null_params_pass_through "q" paddedAnswerEngine 0 1
    (.pyStr "  Refunds within 30 days.  ") rfl

/-- The source loop for `cache_hit` agrees with a first-match probe over the
module list. -/
theorem cacheHitLoop_eq_firstBothProbe (ms : List Module) :
    cacheHitLoop ms = firstBothProbe ms := by
  induction ms with
  | nil => rfl
  | cons m rest ih =>
    by_cases h : (m.hit_rate.isSome && m.last_hit.isSome) = true
    · simp [cacheHitLoop, firstBothProbe, List.find?_cons_of_pos _ h, h]
    · have h2 : cacheHitLoop (m :: rest) = cacheHitLoop rest := by
        simp [cacheHitLoop, h]
      have hf : (m.hit_rate.isSome && m.last_hit.isSome) = false := by
        simpa using h
      have h3 : firstBothProbe (m :: rest) = firstBothProbe rest := by
        unfold firstBothProbe
        simp [List.find?_cons, hf]
      rw [h2, h3]
      exact ih

/-- Claim C10: on every successful query, `cache_hit` is the `_last_hit`
value of the first module exposing both `hit_rate` and `_last_hit` (false
when no module exposes both); this probe can select a different module than
the stats probe, which only requires `hit_rate`. -/
theorem cache_hit_first_both_probe (g : RAGEngine) (request : RAGQueryRequest)
    (t0 t1 : ℚ) (result : PyResult)
    (hrun : g.run request.query request.top_k request.similarity_threshold = .ok result) :
    (∃ resp, rag_query (some g) request t0 t1 = .ok resp
      ∧ resp.cache_hit = firstBothProbe g.modules
      ∧ (g.modules.find? (fun m => m.hit_rate.isSome && m.last_hit.isSome) = none →
          resp.cache_hit = false)
      ∧ (∀ m, g.modules.find? (fun m => m.hit_rate.isSome && m.last_hit.isSome) = some m →
          resp.cache_hit = m.last_hit.getD false))
    ∧ ([{ hit_rate := some 0, last_hit := none },
        { hit_rate := some 0, last_hit := some true }] : List Module).find?
          (fun m => m.hit_rate.isSome) ≠
        ([{ hit_rate := some 0, last_hit := none },
          { hit_rate := some 0, last_hit := some true }] : List Module).find?
          (fun m => m.hit_rate.isSome && m.last_hit.isSome) := by
  constructor
  · refine ⟨{ query := request.query, answer := answerOf result,
              data_source := dataSourceOf result, response_time := pyRound (t1 - t0) 2,
              cache_hit := cacheHitLoop g.modules }, ?_, ?_, ?_, ?_⟩
    · simp [rag_query, hrun]
    · exact cacheHitLoop_eq_firstBothProbe g.modules
    · intro hnone
      simp [cacheHitLoop_eq_firstBothProbe, firstBothProbe, hnone]
    · intro m hm
      simp [cacheHitLoop_eq_firstBothProbe, firstBothProbe, hm]
  · intro h
    simp [List.find?] at h

/-- Claim C10 witness: the padded-answer engine exposes one module with both
attributes, whose `_last_hit` is reported. -/
theorem cache_hit_first_both_probe_witness :
    (∃ resp, rag_query (some paddedAnswerEngine)
        { query := "q", top_k := none, similarity_threshold := none } 0 1 = .ok resp
      ∧ resp.cache_hit = firstBothProbe paddedAnswerEngine.modules
      ∧ (paddedAnswerEngine.modules.find?
            (fun m => m.hit_rate.isSome && m.last_hit.isSome) = none →
          resp.cache_hit = false)
      ∧ (∀ m, paddedAnswerEngine.modules.find?
            (fun m => m.hit_rate.isSome && m.last_hit.isSome) = some m →
          resp.cache_hit = m.last_hit.getD false))
    ∧ ([{ hit_rate := some 0, last_hit := none },
        { hit_rate := some 0, last_hit := some true }] : List Module).find?
          (fun m => m.hit_rate.isSome) ≠
        ([{ hit_rate := some 0, last_hit := none },
          { hit_rate := some 0, last_hit := some true }] : List Module).find?
          (fun m => m.hit_rate.isSome && m.last_hit.isSome) :=
  cache_hit_first_both_probe paddedAnswerEngine
    { query := "q", top_k := none, similarity_threshold := none } 0 1
    (.pyStr "  Refunds within 30 days.  ") rfl

end RagRouter
